import Mathlib

/-!
Formal model of `src/cspdk/sin300/cband/tidy3d_tools/send_to_FDE.py`.

The Python module defines a pydantic model `Waveguide` wrapping an external
electromagnetic mode solver, with a disk cache keyed by an MD5 hash of the
serialized configuration fields.  This file embeds the module shallowly:

* machine-level hashing (`hashlib.md5`, used by `Waveguide.filepath`) is
  implemented over `Nat` with explicit reduction modulo `2 ^ 32`;
* configuration fields are modelled with exact rationals standing in for
  Python floats;
* the external solver and material library are parameters of the embedding
  (their outputs are black-box values produced by an environment);
* the lazily initialised private attributes `_waveguide` and `_cached_data`
  become explicit `Option`-valued state, and the cache directory becomes an
  explicit association list from paths to stored archives.
-/

/-- Byte sequence of an ASCII string (models Python `str.encode()`; all
strings built by the module are ASCII). -/
def strBytes (s : String) : List ℕ := s.data.map Char.toNat

/-- The constant `2 ^ 32`, the modulus for 32-bit arithmetic inside MD5. -/
def w32 : ℕ := 4294967296

/-- Addition on 32-bit words. -/
def add32 (a b : ℕ) : ℕ := (a + b) % w32

/-- Complement on 32-bit words (for inputs below `2 ^ 32`). -/
def not32 (x : ℕ) : ℕ := x ^^^ 4294967295

/-- Left rotation on 32-bit words (for inputs below `2 ^ 32`). -/
def rotl32 (x n : ℕ) : ℕ := ((x <<< n) % w32) ||| (x >>> (32 - n))

/-- The 64 MD5 round constants `floor(abs(sin(i + 1)) * 2 ^ 32)`. -/
def md5K : List ℕ :=
  [0xd76aa478, 0xe8c7b756, 0x242070db, 0xc1bdceee,
   0xf57c0faf, 0x4787c62a, 0xa8304613, 0xfd469501,
   0x698098d8, 0x8b44f7af, 0xffff5bb1, 0x895cd7be,
   0x6b901122, 0xfd987193, 0xa679438e, 0x49b40821,
   0xf61e2562, 0xc040b340, 0x265e5a51, 0xe9b6c7aa,
   0xd62f105d, 0x02441453, 0xd8a1e681, 0xe7d3fbc8,
   0x21e1cde6, 0xc33707d6, 0xf4d50d87, 0x455a14ed,
   0xa9e3e905, 0xfcefa3f8, 0x676f02d9, 0x8d2a4c8a,
   0xfffa3942, 0x8771f681, 0x6d9d6122, 0xfde5380c,
   0xa4beea44, 0x4bdecfa9, 0xf6bb4b60, 0xbebfbc70,
   0x289b7ec6, 0xeaa127fa, 0xd4ef3085, 0x04881d05,
   0xd9d4d039, 0xe6db99e5, 0x1fa27cf8, 0xc4ac5665,
   0xf4292244, 0x432aff97, 0xab9423a7, 0xfc93a039,
   0x655b59c3, 0x8f0ccc92, 0xffeff47d, 0x85845dd1,
   0x6fa87e4f, 0xfe2ce6e0, 0xa3014314, 0x4e0811a1,
   0xf7537e82, 0xbd3af235, 0x2ad7d2bb, 0xeb86d391]

/-- The 64 MD5 per-round left-rotation amounts. -/
def md5S : List ℕ :=
  [7, 12, 17, 22, 7, 12, 17, 22, 7, 12, 17, 22, 7, 12, 17, 22,
   5, 9, 14, 20, 5, 9, 14, 20, 5, 9, 14, 20, 5, 9, 14, 20,
   4, 11, 16, 23, 4, 11, 16, 23, 4, 11, 16, 23, 4, 11, 16, 23,
   6, 10, 15, 21, 6, 10, 15, 21, 6, 10, 15, 21, 6, 10, 15, 21]

/-- Little-endian 64-bit encoding of the message bit length. -/
def lenBytes64 (n : ℕ) : List ℕ :=
  [n % 256, n / 2 ^ 8 % 256, n / 2 ^ 16 % 256, n / 2 ^ 24 % 256,
   n / 2 ^ 32 % 256, n / 2 ^ 40 % 256, n / 2 ^ 48 % 256, n / 2 ^ 56 % 256]

/-- MD5 padding: append `0x80`, zero bytes up to 56 mod 64, then the
original length in bits as a little-endian 64-bit integer. -/
def md5Pad (msg : List ℕ) : List ℕ :=
  msg ++ [128] ++ List.replicate ((119 - msg.length % 64) % 64) 0
    ++ lenBytes64 (8 * msg.length % 2 ^ 64)

/-- Split a byte list into 64-byte chunks (structural recursion on a fuel
bound that dominates the chunk count). -/
def chunksGo : ℕ → List ℕ → List (List ℕ)
  | 0, _ => []
  | fuel + 1, l =>
    if l.length = 0 then [] else l.take 64 :: chunksGo fuel (l.drop 64)

/-- Split a byte list into 64-byte chunks. -/
def chunksOf64 (l : List ℕ) : List (List ℕ) := chunksGo l.length l

/-- Little-endian 32-bit word `g` of a 64-byte chunk. -/
def chunkWord (chunk : List ℕ) (g : ℕ) : ℕ :=
  chunk.getD (4 * g) 0 + chunk.getD (4 * g + 1) 0 * 256
    + chunk.getD (4 * g + 2) 0 * 65536 + chunk.getD (4 * g + 3) 0 * 16777216

/-- MD5 round function (round selected by the step index `i`). -/
def md5F (i b c d : ℕ) : ℕ :=
  if i < 16 then (b &&& c) ||| (not32 b &&& d)
  else if i < 32 then (d &&& b) ||| (not32 d &&& c)
  else if i < 48 then b ^^^ c ^^^ d
  else c ^^^ (b ||| not32 d)

/-- MD5 message-word index for step `i`. -/
def md5G (i : ℕ) : ℕ :=
  if i < 16 then i % 16
  else if i < 32 then (5 * i + 1) % 16
  else if i < 48 then (3 * i + 5) % 16
  else 7 * i % 16

/-- One of the 64 MD5 steps applied to the running state `(a, b, c, d)`. -/
def md5Step (chunk : List ℕ) (st : ℕ × ℕ × ℕ × ℕ) (i : ℕ) : ℕ × ℕ × ℕ × ℕ :=
  let f := (md5F i st.2.1 st.2.2.1 st.2.2.2 + st.1 + md5K.getD i 0
    + chunkWord chunk (md5G i)) % w32
  (st.2.2.2, add32 st.2.1 (rotl32 f (md5S.getD i 0)), st.2.1, st.2.2.1)

/-- Process one 64-byte chunk, adding the result into the state. -/
def md5Chunk (st : ℕ × ℕ × ℕ × ℕ) (chunk : List ℕ) : ℕ × ℕ × ℕ × ℕ :=
  let r := (List.range 64).foldl (md5Step chunk) st
  (add32 st.1 r.1, add32 st.2.1 r.2.1, add32 st.2.2.1 r.2.2.1,
    add32 st.2.2.2 r.2.2.2)

/-- Little-endian byte decomposition of a 32-bit word. -/
def leBytes (x : ℕ) : List ℕ :=
  [x % 256, x / 256 % 256, x / 65536 % 256, x / 16777216 % 256]

/-- MD5 digest (16 bytes) of a byte message. -/
def md5Bytes (msg : List ℕ) : List ℕ :=
  let st := (chunksOf64 (md5Pad msg)).foldl md5Chunk
    (0x67452301, 0xefcdab89, 0x98badcfe, 0x10325476)
  leBytes st.1 ++ leBytes st.2.1 ++ leBytes st.2.2.1 ++ leBytes st.2.2.2

/-- Lowercase hexadecimal digit for `n < 16`. -/
def hexChar (n : ℕ) : Char :=
  if n < 10 then Char.ofNat (48 + n) else Char.ofNat (87 + n)

/-- Whether a character is a lowercase hexadecimal digit. -/
def isHexDigitChar (c : Char) : Bool :=
  c.isDigit || (97 ≤ c.toNat && c.toNat ≤ 102)

/-- Two lowercase hex characters per byte. -/
def bytesToHexChars : List ℕ → List Char
  | [] => []
  | b :: bs => hexChar (b / 16 % 16) :: hexChar (b % 16) :: bytesToHexChars bs

/-- Hex digest of a string, as produced by `hashlib.md5(s.encode()).hexdigest()`. -/
def md5hex (s : String) : String := ⟨bytesToHexChars (md5Bytes (strBytes s))⟩

/-! ## Serialization of configuration field values

The Python module calls a helper `custom_serializer` when deriving the cache
key (`Waveguide.filepath`) and when printing (`Waveguide.__repr__`).  That
helper is referenced but not defined in the repository sources, so it is
modelled from the specification below. -/

/-- Decimal digits of a natural number (structural recursion on a fuel
bound that dominates the digit count). -/
def natDigitsGo : ℕ → ℕ → List Char
  | 0, _ => []
  | fuel + 1, n =>
    if n < 10 then [Char.ofNat (48 + n)]
    else natDigitsGo fuel (n / 10) ++ [Char.ofNat (48 + n % 10)]

/-- Decimal digits of a natural number. -/
def natDigits (n : ℕ) : List Char := natDigitsGo (n + 1) n

/-- Decimal string of a natural number. -/
def natStr (n : ℕ) : String := ⟨natDigits n⟩

/-- Stable rendering of a rational standing in for Python float `str`:
sign, numerator, a dot, denominator.  The exact shape is irrelevant to the
module; what matters is that it is a fixed deterministic function of the
value (and that, containing a dot, it can never collide with the token
used for `None`). -/
def floatStr (q : ℚ) : String :=
  (if q < 0 then ("-" : String) else ("" : String))
    ++ natStr q.num.natAbs ++ "." ++ natStr q.den

/-- A validated `wavelength` value: `np.array(v, dtype=float)` yields a
0-d array for a scalar input and a 1-d array for a sequence input. -/
inductive NDArrayF
  | scalarArr (q : ℚ)
  | arr (qs : List ℚ)
deriving DecidableEq

/-- Raw `wavelength` argument: `float | Sequence[float] | Any`; lists and
arrays are different containers for the same numbers. -/
inductive WavelengthInput
  | scalar (q : ℚ)
  | ofList (qs : List ℚ)
  | ofArray (qs : List ℚ)
deriving DecidableEq

/-- The pydantic validator `_fix_wavelength_type`:
`np.array(v, dtype=float)`. -/
def fix_wavelength_type : WavelengthInput → NDArrayF
  | .scalar q => .scalarArr q
  | .ofList qs => .arr qs
  | .ofArray qs => .arr qs

/-- A material specification (`MaterialSpecTidy3d`): a named material, a
refractive index, a complex index pair, or an explicit medium object
(identified here by a name tag). -/
inductive MaterialSpec
  | name (s : String)
  | index (n : ℚ)
  | nk (n k : ℚ)
  | medium (tag : String)
deriving DecidableEq

/-- Computation precision literal. -/
inductive Precision
  | single
  | double
deriving DecidableEq

/-- A bool-or-float value (`group_index_step: bool | float`). -/
inductive GroupIndexStep
  | ofBool (b : Bool)
  | ofFloat (q : ℚ)
deriving DecidableEq

/-- A value of one configuration field, as seen by `custom_serializer`. -/
inductive FieldValue
  | none
  | float (q : ℚ)
  | int (n : ℕ)
  | bool (b : Bool)
  | str (s : String)
  | array (a : NDArrayF)
  | material (m : MaterialSpec)
deriving DecidableEq

/-- String values are rendered quoted (as Python `repr` would show them). -/
def quoteStr (s : String) : String := ⟨'\x27' :: (s.data ++ ['\x27'])⟩

/-- Rendering of a wavelength array (`np.array2string`): a 0-d array prints
as a bare number, a 1-d array in square brackets. -/
def arrayStr : NDArrayF → String
  | .scalarArr q => floatStr q
  | .arr qs => "[" ++ String.intercalate (" ") (qs.map floatStr) ++ "]"

/-- Rendering of a material specification. -/
def materialStr : MaterialSpec → String
  | .name s => quoteStr s
  | .index n => floatStr n
  | .nk n k => "(" ++ floatStr n ++ ", " ++ floatStr k ++ ")"
  | .medium tag => "Medium(" ++ tag ++ ")"

/-- Modelled from the spec: the helper `custom_serializer` used by
`Waveguide.filepath` and `Waveguide.__repr__` is missing from the
repository sources.  Per the specification it is a total function giving
stable formatting for floats, sequences and material specifications, and
serializing `None` to a distinct stable token different from the
serialization of any real value. -/
def custom_serializer : FieldValue → String
  | .none => "None"
  | .float q => floatStr q
  | .int n => natStr n
  | .bool b => if b then "True" else "False"
  | .str s => quoteStr s
  | .array a => arrayStr a
  | .material m => materialStr m

/-! ## The `Waveguide` configuration record -/

/-- The 23 declared fields of the pydantic model `Waveguide`, with exact
rationals for Python floats.  The private attributes `_cached_data` and
`_waveguide` are not declared fields; they are modelled as explicit state
below. -/
structure Waveguide where
  wavelength : NDArrayF
  core_width : ℚ
  core_thickness : ℚ
  core_material : MaterialSpec
  clad_material : MaterialSpec
  box_material : Option MaterialSpec := Option.none
  slab_thickness : ℚ := 0
  clad_thickness : Option ℚ := Option.none
  box_thickness : Option ℚ := Option.none
  side_margin : Option ℚ := Option.none
  sidewall_angle : ℚ := 0
  sidewall_thickness : ℚ := 0
  sidewall_k : ℚ := 0
  surface_thickness : ℚ := 0
  surface_k : ℚ := 0
  bend_radius : Option ℚ := Option.none
  num_modes : ℕ := 2
  group_index_step : GroupIndexStep := .ofBool false
  precision : Precision := .double
  grid_resolution : ℕ := 20
  max_grid_scaling : ℚ := 12 / 10
  cache_path : Option String := some ("modes")
  overwrite : Bool := false
deriving DecidableEq

/-- Constructing a `Waveguide` runs the `wavelength` validator
(`np.array(v, dtype=float)`) on the raw input; all other arguments are
stored as given. -/
def mkWaveguide (wl : WavelengthInput) (w : NDArrayF → Waveguide) : Waveguide :=
  w (fix_wavelength_type wl)

/-- An optional float field value. -/
def optFloat : Option ℚ → FieldValue
  | Option.none => .none
  | some q => .float q

/-- An optional string field value (`cache_path`). -/
def optStr : Option String → FieldValue
  | Option.none => .none
  | some s => .str s

/-- An optional material field value (`box_material`). -/
def optMaterial : Option MaterialSpec → FieldValue
  | Option.none => .none
  | some m => .material m

/-- A `bool | float` field value (`group_index_step`). -/
def gisValue : GroupIndexStep → FieldValue
  | .ofBool b => .bool b
  | .ofFloat q => .float q

/-- The `precision` literal is a Python string. -/
def precisionStr : Precision → String
  | .single => "single"
  | .double => "double"

/-- Models `getattr(self, name)` for each declared field, as a `FieldValue`. -/
def getField (w : Waveguide) : String → FieldValue
  | "wavelength" => .array w.wavelength
  | "core_width" => .float w.core_width
  | "core_thickness" => .float w.core_thickness
  | "core_material" => .material w.core_material
  | "clad_material" => .material w.clad_material
  | "box_material" => optMaterial w.box_material
  | "slab_thickness" => .float w.slab_thickness
  | "clad_thickness" => optFloat w.clad_thickness
  | "box_thickness" => optFloat w.box_thickness
  | "side_margin" => optFloat w.side_margin
  | "sidewall_angle" => .float w.sidewall_angle
  | "sidewall_thickness" => .float w.sidewall_thickness
  | "sidewall_k" => .float w.sidewall_k
  | "surface_thickness" => .float w.surface_thickness
  | "surface_k" => .float w.surface_k
  | "bend_radius" => optFloat w.bend_radius
  | "num_modes" => .int w.num_modes
  | "group_index_step" => gisValue w.group_index_step
  | "precision" => .str (precisionStr w.precision)
  | "grid_resolution" => .int w.grid_resolution
  | "max_grid_scaling" => .float w.max_grid_scaling
  | "cache_path" => optStr w.cache_path
  | "overwrite" => .bool w.overwrite
  | _ => .none

/-- The declared field names in declaration order
(`self.__fields__.keys()`). -/
def fieldNamesDecl : List String :=
  ["wavelength", "core_width", "core_thickness", "core_material",
   "clad_material", "box_material", "slab_thickness", "clad_thickness",
   "box_thickness", "side_margin", "sidewall_angle", "sidewall_thickness",
   "sidewall_k", "surface_thickness", "surface_k", "bend_radius",
   "num_modes", "group_index_step", "precision", "grid_resolution",
   "max_grid_scaling", "cache_path", "overwrite"]

/-- Lexicographic comparison of character lists by code point (Python
string comparison). -/
def charListLe : List Char → List Char → Bool
  | [], _ => true
  | _ :: _, [] => false
  | a :: as, b :: bs =>
    if a.toNat < b.toNat then true
    else if b.toNat < a.toNat then false
    else charListLe as bs

/-- Python string comparison. -/
def strLe (a b : String) : Bool := charListLe a.data b.data

/-- The sorted field names `sorted(self.__fields__.keys())` (insertion sort computes the same
ascending rearrangement; the names are pairwise distinct). -/
def sortedFieldNames : List String :=
  fieldNamesDecl.insertionSort (fun a b => strLe a b = true)

/-- The list comprehension in `Waveguide.filepath`: one
`setting=custom_serializer(getattr(self, setting))` entry per declared
field, in sorted name order. -/
def settingsList (w : Waveguide) : List String :=
  sortedFieldNames.map (fun n => n ++ "=" ++ custom_serializer (getField w n))

/-- The joined settings string `named_args_string = "_".join(settings)`. -/
def named_args_string (w : Waveguide) : String :=
  String.intercalate ("_") (settingsList w)

/-- The truncated digest `hashlib.md5(named_args_string.encode()).hexdigest()[:16]`. -/
def cacheKey (w : Waveguide) : String :=
  ⟨(md5hex (named_args_string w)).data.take 16⟩

/-- The property `Waveguide.filepath`: `None` when no cache directory is configured
(Python truthiness: `None` and the empty string are falsy), otherwise
`cache_path / "Waveguide_<key>.npz"`.  The `mkdir` side effect is not part
of the value. -/
def filepath (w : Waveguide) : Option String :=
  match w.cache_path with
  | Option.none => Option.none
  | some p =>
    if p = "" then Option.none
    else some (p ++ "/" ++ "Waveguide_" ++ cacheKey w ++ ".npz")

/-! ## The lazy simulation handle (`Waveguide.waveguide`) -/

/-- A complex number with exact rational parts, standing in for a Python
complex float. -/
structure Complexq where
  re : ℚ
  im : ℚ
deriving DecidableEq

/-- An optical medium object from the external library: the result of
`get_medium` on a specification, a medium passed through unchanged, or a
medium built by `td.Medium.from_nk`. -/
inductive Medium
  | resolved (m : MaterialSpec)
  | direct (tag : String)
  | from_nk (n k freq : ℚ)
deriving DecidableEq

/-- The `isinstance(material, td.CustomMedium | td.Medium)` dispatch in
`Waveguide.waveguide`: explicit medium objects are used directly, any
other specification goes through `get_medium`. -/
def resolveMedium : MaterialSpec → Medium
  | .medium tag => .direct tag
  | m => .resolved m

/-- Python truthiness of a material specification (`if self.box_material:`).
An empty name or a zero refractive index is falsy. -/
def materialTruthy : MaterialSpec → Bool
  | .name s => s ≠ ""
  | .index n => n ≠ 0
  | .nk _ _ => true
  | .medium _ => true

/-- Python truthiness of `bend_radius` (`None` and `0.0` are falsy). -/
def bendTruthy : Option ℚ → Bool
  | Option.none => false
  | some r => r ≠ 0

/-- Mean (`np.mean`) of a validated wavelength array. -/
def meanWavelength : NDArrayF → ℚ
  | .scalarArr q => q
  | .arr qs => qs.sum / qs.length

/-- The external constants and computations the builder consumes:
`td.C_0` and `medium.eps_model(freq) ** 0.5` (a black box of the
simulation library). -/
structure ExternalEnv where
  c0 : ℚ
  eps_sqrt : Medium → ℚ → Complexq

/-- The `td.ModeSpec` assembled by `Waveguide.waveguide`. -/
structure ModeSpec where
  num_modes : ℕ
  target_neff : ℚ
  bend_radius : Option ℚ
  bend_axis : ℕ
  num_pml : ℕ × ℕ
  precision : Precision
  group_index_step : GroupIndexStep
deriving DecidableEq

/-- The `waveguide.RectangularDielectric` simulation object, identified by
the arguments it was constructed from. -/
structure SimHandle where
  wavelength : NDArrayF
  core_width : ℚ
  core_thickness : ℚ
  core_medium : Medium
  clad_medium : Medium
  box_medium : Option Medium
  slab_thickness : ℚ
  clad_thickness : Option ℚ
  box_thickness : Option ℚ
  side_margin : Option ℚ
  sidewall_angle : ℚ
  sidewall_thickness : ℚ
  sidewall_medium : Option Medium
  surface_thickness : ℚ
  surface_medium : Option Medium
  propagation_axis : ℕ
  normal_axis : ℕ
  mode_spec : ModeSpec
  grid_resolution : ℕ
  max_grid_scaling : ℚ
deriving DecidableEq

/-- The body of `Waveguide.waveguide` that runs when `_waveguide` is not
yet set: resolve the media, derive side/top-surface loss media when the
corresponding absorption coefficient is nonzero, assemble the mode
specification, and construct the simulation object. -/
def buildWaveguide (env : ExternalEnv) (w : Waveguide) : SimHandle :=
  let core_medium := resolveMedium w.core_material
  let clad_medium := resolveMedium w.clad_material
  let box_medium :=
    match w.box_material with
    | some m => if materialTruthy m then some (resolveMedium m) else Option.none
    | Option.none => Option.none
  let freq0 := env.c0 / meanWavelength w.wavelength
  let n_core := env.eps_sqrt core_medium freq0
  let n_clad := env.eps_sqrt clad_medium freq0
  let sidewall_medium :=
    if w.sidewall_k ≠ 0 then
      some (Medium.from_nk n_clad.re (n_clad.im + w.sidewall_k) freq0)
    else Option.none
  let surface_medium :=
    if w.surface_k ≠ 0 then
      some (Medium.from_nk n_clad.re (n_clad.im + w.surface_k) freq0)
    else Option.none
  { wavelength := w.wavelength
    core_width := w.core_width
    core_thickness := w.core_thickness
    core_medium := core_medium
    clad_medium := clad_medium
    box_medium := box_medium
    slab_thickness := w.slab_thickness
    clad_thickness := w.clad_thickness
    box_thickness := w.box_thickness
    side_margin := w.side_margin
    sidewall_angle := w.sidewall_angle
    sidewall_thickness := w.sidewall_thickness
    sidewall_medium := sidewall_medium
    surface_thickness := w.surface_thickness
    surface_medium := surface_medium
    propagation_axis := 2
    normal_axis := 1
    mode_spec :=
      { num_modes := w.num_modes
        target_neff := n_core.re
        bend_radius := w.bend_radius
        bend_axis := 1
        num_pml := if bendTruthy w.bend_radius then (12, 12) else (0, 0)
        precision := w.precision
        group_index_step := w.group_index_step }
    grid_resolution := w.grid_resolution
    max_grid_scaling := w.max_grid_scaling }

/-! ## Result data (`Waveguide._data`) -/

/-- A stored numerical array: real, complex, or complex with a leading
mode axis.  Arrays are modelled already squeezed. -/
inductive NpArray
  | rArr (vals : List ℚ)
  | cArr (vals : List Complexq)
  | cmArr (vals : List (List Complexq))
deriving DecidableEq

/-- The named-array mapping persisted to one cache file. -/
abbrev DataMap := List (String × NpArray)

/-- Output of the external mode solver for one simulation object:
field components by name and mode index, coordinates, complex effective
index, mode area, and the optional group index. -/
structure ModeSolverData where
  fieldComp : String → ℕ → List Complexq
  x : List ℚ
  y : List ℚ
  n_complex : List Complexq
  mode_area : List ℚ
  n_group : Option (List ℚ)

/-- The comprehension `f + c for f in "EH" for c in "xyz"`. -/
def fieldComponentNames : List String :=
  ["E", "H"].flatMap (fun f => ["x", "y", "z"].map (fun c => f ++ c))

/-- Total intensity `np.sum(np.abs(e) ** 2)` of a complex field array. -/
def sumAbsSq (l : List Complexq) : ℚ :=
  (l.map (fun z => z.re * z.re + z.im * z.im)).sum

/-- The per-mode polarization-fraction computation in `Waveguide._data`:
`areas_e = [sum|Ex|^2, sum|Ey|^2]`, normalised by its sum, scaled by 100,
then each fraction is its share of the pair. -/
def fractionPair (ex ey : List Complexq) : ℚ × ℚ :=
  let areas0 := sumAbsSq ex
  let areas1 := sumAbsSq ey
  let t := areas0 + areas1
  let a0 := areas0 / t * 100
  let a1 := areas1 / t * 100
  (a0 / (a0 + a1), a1 / (a0 + a1))

/-- The `fraction_te` array computed by `Waveguide._data`. -/
def fraction_te_computed (w : Waveguide) (sol : ModeSolverData) : List ℚ :=
  (List.range w.num_modes).map
    (fun i => (fractionPair (sol.fieldComp ("Ex") i) (sol.fieldComp ("Ey") i)).1)

/-- The `fraction_tm` array computed by `Waveguide._data`. -/
def fraction_tm_computed (w : Waveguide) (sol : ModeSolverData) : List ℚ :=
  (List.range w.num_modes).map
    (fun i => (fractionPair (sol.fieldComp ("Ex") i) (sol.fieldComp ("Ey") i)).2)

/-- The named mapping `Waveguide._data` assembles after a simulation run:
the six field components, coordinates, effective index, mode area, the two
polarization-fraction arrays, and `n_group` when present. -/
def computeData (w : Waveguide) (sol : ModeSolverData) : DataMap :=
  (fieldComponentNames.map (fun fc =>
    (fc, NpArray.cmArr ((List.range w.num_modes).map (sol.fieldComp fc)))))
  ++ [("x", NpArray.rArr sol.x), ("y", NpArray.rArr sol.y),
      ("n_eff", NpArray.cArr sol.n_complex),
      ("mode_area", NpArray.rArr sol.mode_area),
      ("fraction_te", NpArray.rArr (fraction_te_computed w sol)),
      ("fraction_tm", NpArray.rArr (fraction_tm_computed w sol))]
  ++ (match sol.n_group with
      | some g => [("n_group", NpArray.rArr g)]
      | Option.none => [])

/-- One `Waveguide` object: the immutable declared fields plus the two
lazily initialised private attributes (`_waveguide`, `_cached_data`),
which start unset. -/
structure Instance where
  cfg : Waveguide
  wg_handle : Option SimHandle := Option.none
  cached_data : Option DataMap := Option.none

/-- The cache directory contents: stored archive per file path (a later
`np.savez` to the same path overwrites, modelled by prepending). -/
abbrev FS := List (String × DataMap)

/-- Observable actions of one `_data` access, in the order they happen. -/
inductive Event
  | load (p : String)
  | compute
  | store (p : String)
deriving DecidableEq

/-- The `Waveguide.waveguide` property: build and memoize the simulation
object on first access, return the memoized object afterwards.  The third
component records whether this access constructed the object. -/
def waveguideAccess (env : ExternalEnv) (inst : Instance) :
    SimHandle × Instance × Bool :=
  match inst.wg_handle with
  | some h => (h, inst, false)
  | Option.none =>
    let h := buildWaveguide env inst.cfg
    (h, { inst with wg_handle := some h }, true)

/-- The fall-through branch of `Waveguide._data`: access the lazy
simulation object, run the solver, assemble the mapping, memoize it, and
persist it when a cache file path exists. -/
def computeAndMaybeStore (env : ExternalEnv) (solver : SimHandle → ModeSolverData)
    (inst : Instance) (fs : FS) (fp : Option String) :
    DataMap × Instance × FS × List Event :=
  let r := waveguideAccess env inst
  let d := computeData r.2.1.cfg (solver r.1)
  let inst2 := { r.2.1 with cached_data := some d }
  match fp with
  | some p => (d, inst2, (p, d) :: fs, [Event.compute, Event.store p])
  | Option.none => (d, inst2, fs, [Event.compute])

/-- The `Waveguide._data` property.  The external solver
(`wg.mode_solver.data` and the derived attributes of the simulation
object) is a parameter. -/
def dataAccess (env : ExternalEnv) (solver : SimHandle → ModeSolverData)
    (inst : Instance) (fs : FS) : DataMap × Instance × FS × List Event :=
  match inst.cached_data with
  | some d => (d, inst, fs, [])
  | Option.none =>
    match filepath inst.cfg with
    | some p =>
      match fs.lookup p, inst.cfg.overwrite with
      | some stored, false =>
        (stored, { inst with cached_data := some stored }, fs, [Event.load p])
      | _, _ => computeAndMaybeStore env solver inst fs (some p)
    | Option.none => computeAndMaybeStore env solver inst fs Option.none

/-! ## Plotting entry point (`Waveguide.plot_field`) -/

/-- Size of the wavelength array (`self.wavelength.size`). -/
def ndSize : NDArrayF → ℕ
  | .scalarArr _ => 1
  | .arr qs => qs.length

/-- The wavelength values as a list. -/
def wlList : NDArrayF → List ℚ
  | .scalarArr q => [q]
  | .arr qs => qs

/-- Index of the first closest value
(`np.argmin(np.abs(target - values))`). -/
def argminAbsDiff (target : ℚ) (l : List ℚ) : ℕ :=
  ((l.enum.foldl (fun acc p =>
    match acc with
    | Option.none => some (p.1, |target - p.2|)
    | some (bi, bv) =>
      if |target - p.2| < bv then some (p.1, |target - p.2|)
      else some (bi, bv)) Option.none).map Prod.fst).getD 0

/-- Selection `data[..., mode_index]` on an array with a mode axis. -/
def selectModeIndex (a : NpArray) (i : ℕ) : NpArray :=
  match a with
  | .cmArr vs => .cArr (vs.getD i [])
  | a => a

/-- The value `plot_field` hands to the plotting backend: the requested
field name, the value component, the mode-selected data, and the selected
wavelength index.  The numeric real/imag/abs/dB/phase rendering and the
matplotlib call are presentation glue outside this model. -/
structure PlotSelection where
  field_name : String
  value : String
  data : NpArray
  wl_index : Option ℕ
deriving DecidableEq

/-- The method `Waveguide.plot_field`, as far as its validation logic and state
effects go.  Mirrors the source order: the result data is obtained first
(`data = self._data[field_name]`, raising a `KeyError` for an unknown
name), the `mode_index` bound is checked next, then mode and wavelength
selection, then the `value` dispatch whose final branch raises.  The
event list records the data-access actions, which all happen before any
of these validations. -/
def plot_field (env : ExternalEnv) (solver : SimHandle → ModeSolverData)
    (inst : Instance) (fs : FS) (field_name : String) (value : String)
    (mode_index : ℕ) (wavelength : Option ℚ) :
    Except String PlotSelection × Instance × FS × List Event :=
  let r := dataAccess env solver inst fs
  let inst1 := r.2.1
  let fs1 := r.2.2.1
  let evs := r.2.2.2
  match r.1.lookup field_name with
  | Option.none => (Except.error ("KeyError: " ++ field_name), inst1, fs1, evs)
  | some a =>
    if inst1.cfg.num_modes ≤ mode_index then
      (Except.error ("mode_index = " ++ natStr mode_index
        ++ " must be less than num_modes " ++ natStr inst1.cfg.num_modes),
        inst1, fs1, evs)
    else
      let a1 := if 1 < inst1.cfg.num_modes then selectModeIndex a mode_index else a
      let wi : Option ℕ :=
        if 1 < ndSize inst1.cfg.wavelength then
          some (match wavelength with
            | some v =>
              if v = 0 then ndSize inst1.cfg.wavelength / 2
              else argminAbsDiff v (wlList inst1.cfg.wavelength)
            | Option.none => ndSize inst1.cfg.wavelength / 2)
        else Option.none
      if value = "real" ∨ value = "imag" ∨ value = "abs"
          ∨ value = "dB" ∨ value = "phase" then
        (Except.ok
          { field_name := field_name, value := value, data := a1, wl_index := wi },
          inst1, fs1, evs)
      else
        (Except.error ("value must be one of real, imag, abs, phase, dB"),
          inst1, fs1, evs)

/-- Whether a call outcome is a raised error. -/
def isErr {α : Type} : Except String α → Bool
  | .error _ => true
  | .ok _ => false

/-! ## Propagation loss (`Waveguide.loss_dB_per_cm`) -/

/-- Entry `i` of the wavelength array (broadcasting a 0-d array). -/
def wlAt (a : NDArrayF) (i : ℕ) : ℚ :=
  match a with
  | .scalarArr q => q
  | .arr qs => qs.getD i 0

/-- The property `Waveguide.loss_dB_per_cm`, entry at wavelength index `iw` and mode
index `imode`, translated step by step:
`wavelength = self.wavelength * 1e-6`, then
`alpha = 2 * np.pi * np.imag(self.n_eff).T / wavelength`, whose transpose
puts the mode axis first so the division broadcasts over wavelengths, then
`20 * np.log10(np.e) * alpha.T * 1e-2`.  The float constants
`np.log10(np.e)` and `np.pi` are the parameters `log10e` and `pi`;
`n_eff_im iw imode` is `np.imag(self.n_eff)[iw, imode]`. -/
def loss_dB_per_cm (log10e pi : ℚ) (w : Waveguide) (n_eff_im : ℕ → ℕ → ℚ)
    (iw imode : ℕ) : ℚ :=
  let wavelength := fun i => wlAt w.wavelength i * (1e-6 : ℚ)
  let alphaT := fun m i => 2 * pi * n_eff_im i m / wavelength i
  20 * log10e * alphaT imode iw * (1e-2 : ℚ)

/-- The closed-form loss expression as the specification states it:
`20 * log10(e) * (2 * pi * Im(n_eff) / wavelength_in_meters) * 1e-2` with
`wavelength_in_meters` the configured wavelength (micrometers) times
`1e-6`, per mode and per wavelength. -/
def loss_dB_per_cm_spec (log10e pi : ℚ) (w : Waveguide) (n_eff_im : ℕ → ℕ → ℚ)
    (iw imode : ℕ) : ℚ :=
  20 * log10e * (2 * pi * n_eff_im iw imode
    / (wlAt w.wavelength iw * (1e-6 : ℚ))) * (1e-2 : ℚ)

/-- A run of `n` successive accesses to the `waveguide` property of one
instance: the list collects, per access, the handle returned and whether
this access constructed the simulation object. -/
def accessSeq (env : ExternalEnv) : ℕ → Instance → List (SimHandle × Bool) × Instance
  | 0, inst => ([], inst)
  | n + 1, inst =>
    let r := waveguideAccess env inst
    let rest := accessSeq env n r.2.1
    ((r.1, r.2.2) :: rest.1, rest.2)

/-! ## Concrete objects used by the witnesses -/

/-- Configuration built from a Python list wavelength. -/
def cfgList : Waveguide :=
  mkWaveguide (.ofList [3 / 2, 8 / 5]) (fun a =>
    { wavelength := a, core_width := 1 / 2, core_thickness := 3 / 10,
      core_material := .name ("sin"), clad_material := .name ("sio2") })

/-- The same configuration built from a numpy-array wavelength holding the
same numbers. -/
def cfgArray : Waveguide :=
  mkWaveguide (.ofArray [3 / 2, 8 / 5]) (fun a =>
    { wavelength := a, core_width := 1 / 2, core_thickness := 3 / 10,
      core_material := .name ("sin"), clad_material := .name ("sio2") })

/-- A configuration with caching disabled. -/
def cfgNoCache : Waveguide :=
  mkWaveguide (.ofList [3 / 2]) (fun a =>
    { wavelength := a, core_width := 1 / 2, core_thickness := 3 / 10,
      core_material := .name ("sin"), clad_material := .name ("sio2"),
      cache_path := Option.none })

/-- A fresh instance of the cache-disabled configuration. -/
def instNoCache : Instance := { cfg := cfgNoCache }

/-- A fresh instance of the cache-enabled configuration. -/
def instCache : Instance := { cfg := cfgList }

/-- A concrete external environment. -/
def envC : ExternalEnv :=
  { c0 := 299792458, eps_sqrt := fun _ _ => ⟨2, 0⟩ }

/-- A concrete solver output, constant across simulation objects. -/
def solverC : SimHandle → ModeSolverData := fun _ =>
  { fieldComp := fun _ _ => [⟨1, 0⟩], x := [0], y := [0],
    n_complex := [⟨2, 0⟩], mode_area := [1], n_group := Option.none }

/-- A solver output with all transverse E-field energy in `Ex`. -/
def solW : ModeSolverData :=
  { fieldComp := fun name _ => if name = "Ex" then [⟨1, 0⟩] else [],
    x := [0], y := [0], n_complex := [⟨2, 0⟩], mode_area := [1],
    n_group := Option.none }

/-! ## Helper lemmas -/

theorem bytesToHexChars_length (bs : List ℕ) :
    (bytesToHexChars bs).length = 2 * bs.length := by
  induction bs with
  | nil => rfl
  | cons b bs ih => simp [bytesToHexChars, ih]; omega

theorem mem_bytesToHexChars {c : Char} {bs : List ℕ}
    (h : c ∈ bytesToHexChars bs) : ∃ n, n < 16 ∧ c = hexChar n := by
  induction bs with
  | nil => simp [bytesToHexChars] at h
  | cons b bs ih =>
    simp only [bytesToHexChars, List.mem_cons] at h
    rcases h with h | h | h
    · exact ⟨b / 16 % 16, Nat.mod_lt _ (by omega), h⟩
    · exact ⟨b % 16, Nat.mod_lt _ (by omega), h⟩
    · exact ih h

theorem hexChar_isHexDigit {n : ℕ} (h : n < 16) :
    isHexDigitChar (hexChar n) = true := by
  interval_cases n <;> decide

theorem md5Bytes_length (msg : List ℕ) : (md5Bytes msg).length = 16 := by
  simp [md5Bytes, leBytes]

theorem md5hex_length (s : String) : (md5hex s).data.length = 32 := by
  show (bytesToHexChars (md5Bytes (strBytes s))).length = 32
  rw [bytesToHexChars_length, md5Bytes_length]

theorem cacheKey_length (w : Waveguide) : (cacheKey w).length = 16 := by
  show ((md5hex (named_args_string w)).data.take 16).length = 16
  rw [List.length_take, md5hex_length]
  rfl

theorem cacheKey_hex (w : Waveguide) :
    ∀ c ∈ (cacheKey w).data, isHexDigitChar c = true := by
  intro c hc
  have hc2 : c ∈ (md5hex (named_args_string w)).data :=
    List.take_subset 16 _ hc
  obtain ⟨n, hn, rfl⟩ := mem_bytesToHexChars hc2
  exact hexChar_isHexDigit hn

theorem quoteStr_inj {s t : String} (h : quoteStr s = quoteStr t) : s = t := by
  have hd : ('\x27' : Char) :: (s.data ++ ['\x27'])
      = ('\x27' : Char) :: (t.data ++ ['\x27']) := congrArg String.data h
  injection hd with _ h2
  exact String.ext (List.append_cancel_right h2)

theorem ne_none_of_head (s : String) (c : Char) (l : List Char)
    (hs : s.data = c :: l) (hc : c ≠ 'N') : s ≠ ("None") := by
  intro h
  rw [h] at hs
  have hs2 : ('N' : Char) :: ['o', 'n', 'e'] = c :: l := hs
  injection hs2 with h1 _
  exact hc h1.symm

theorem natDigitsGo_isDigit (fuel : ℕ) :
    ∀ n c, c ∈ natDigitsGo fuel n → c.isDigit = true := by
  induction fuel with
  | zero => intro n c hc; simp [natDigitsGo] at hc
  | succ fuel ih =>
    intro n c hc
    simp only [natDigitsGo] at hc
    by_cases h : n < 10
    · simp only [h, if_true, List.mem_singleton] at hc
      subst hc
      interval_cases n <;> decide
    · simp only [h, if_false, List.mem_append, List.mem_singleton] at hc
      rcases hc with hc | hc
      · exact ih _ _ hc
      · subst hc
        have hm : n % 10 < 10 := Nat.mod_lt _ (by omega)
        generalize n % 10 = m at hm ⊢
        interval_cases m <;> decide

theorem natDigits_isDigit (n : ℕ) : ∀ c ∈ natDigits n, c.isDigit = true :=
  fun c hc => natDigitsGo_isDigit (n + 1) n c hc

theorem natStr_ne_none (n : ℕ) : natStr n ≠ ("None") := by
  intro h
  have hd : natDigits n = ['N', 'o', 'n', 'e'] := congrArg String.data h
  have hN : ('N' : Char) ∈ natDigits n := by rw [hd]; simp
  have := natDigits_isDigit n _ hN
  exact absurd this (by decide)

theorem dot_mem_floatStr (q : ℚ) : ('.' : Char) ∈ (floatStr q).data := by
  have h1 : ('.' : Char) ∈ (".").data := by decide
  unfold floatStr
  rw [String.data_append, String.data_append, String.data_append]
  exact List.mem_append.mpr (Or.inl (List.mem_append.mpr (Or.inr h1)))

theorem floatStr_ne_none (q : ℚ) : floatStr q ≠ ("None") := by
  intro h
  have hd := dot_mem_floatStr q
  rw [h] at hd
  exact absurd hd (by decide)

theorem optStr_serializer_inj {a b : Option String}
    (h : custom_serializer (optStr a) = custom_serializer (optStr b)) :
    a = b := by
  cases a with
  | none =>
    cases b with
    | none => rfl
    | some t =>
      exact absurd h.symm (ne_none_of_head (quoteStr t) '\x27' _ rfl (by decide))
  | some s =>
    cases b with
    | none =>
      exact absurd h (ne_none_of_head (quoteStr s) '\x27' _ rfl (by decide))
    | some t =>
      exact congrArg some (quoteStr_inj h)

set_option maxRecDepth 20000 in
/-- Sanity check of the MD5 implementation against two published test
vectors. -/
theorem md5hex_test_vectors :
    md5hex ("abc") = "900150983cd24fb0d6963f7d28e17f72"
      ∧ md5hex ("") = "d41d8cd98f00b204e9800998ecf8427e" := by
  constructor <;> decide

theorem waveguideAccess_cfg (env : ExternalEnv) (inst : Instance) :
    (waveguideAccess env inst).2.1.cfg = inst.cfg := by
  rcases inst with ⟨cfg, wh, cd⟩
  rcases wh with _ | h <;> rfl

theorem computeAndMaybeStore_cfg (env : ExternalEnv)
    (solver : SimHandle → ModeSolverData) (inst : Instance) (fs : FS)
    (fp : Option String) :
    (computeAndMaybeStore env solver inst fs fp).2.1.cfg = inst.cfg := by
  rcases fp with _ | p <;> exact waveguideAccess_cfg env inst

theorem dataAccess_cfg (env : ExternalEnv) (solver : SimHandle → ModeSolverData)
    (inst : Instance) (fs : FS) :
    (dataAccess env solver inst fs).2.1.cfg = inst.cfg := by
  rcases hd : inst.cached_data with _ | d
  · rcases hfp : filepath inst.cfg with _ | p
    · simp only [dataAccess, hd, hfp]
      exact computeAndMaybeStore_cfg env solver inst fs Option.none
    · rcases hl : fs.lookup p with _ | stored <;>
        rcases hov : inst.cfg.overwrite with _ | _ <;>
          simp only [dataAccess, hd, hfp, hl, hov] <;>
        exact computeAndMaybeStore_cfg env solver inst fs (some p)
  · simp only [dataAccess, hd]

/-! ## Claim theorems -/

/-- C1: two `Waveguide` configurations whose fields serialize to the same
values (the per-field `name=value` entries of `filepath` coincide) derive
the same cache key and the same cache file path.  Containers are
normalised before serialization: the wavelength validator turns lists and
arrays of the same numbers into the same array (see the witness). -/
theorem same_serialization_same_filepath (w1 w2 : Waveguide)
    (h : settingsList w1 = settingsList w2) :
    cacheKey w1 = cacheKey w2 ∧ filepath w1 = filepath w2 := by
  have hkey : cacheKey w1 = cacheKey w2 := by
    unfold cacheKey named_args_string
    rw [h]
  refine ⟨hkey, ?_⟩
  have hcp : w1.cache_path = w2.cache_path := by
    have hmem : ("cache_path" : String) ∈ sortedFieldNames := by decide
    unfold settingsList at h
    have hent := (List.map_eq_map_iff.mp h) ("cache_path") hmem
    have hdat := congrArg String.data hent
    rw [String.data_append, String.data_append, String.data_append,
      String.data_append, List.append_assoc, List.append_assoc] at hdat
    have hser := String.ext
      (List.append_cancel_left (List.append_cancel_left hdat))
    have e1 : getField w1 ("cache_path") = optStr w1.cache_path := rfl
    have e2 : getField w2 ("cache_path") = optStr w2.cache_path := rfl
    rw [e1, e2] at hser
    exact optStr_serializer_inj hser
  unfold filepath
  rw [hcp, hkey]

/-- Witness for C1: the list-built and array-built configurations
serialize identically, hence share the cache key and file path. -/
theorem same_serialization_same_filepath_witness :
    cacheKey cfgList = cacheKey cfgArray
      ∧ filepath cfgList = filepath cfgArray :=
  same_serialization_same_filepath cfgList cfgArray rfl

/-- C2: with a cache directory configured, the cache file path is the
directory, the type name `Waveguide`, an underscore, the key, and the
`.npz` extension; the key is the md5 hex digest of the sorted
`name=serialized_value` entries joined by underscores, truncated to
exactly 16 hexadecimal characters. -/
theorem cache_key_structure (w : Waveguide) (p : String)
    (h1 : w.cache_path = some p) (h2 : p ≠ "") :
    filepath w = some (p ++ "/" ++ "Waveguide_" ++ cacheKey w ++ ".npz")
    ∧ cacheKey w = ⟨(md5hex (String.intercalate ("_")
        ((fieldNamesDecl.insertionSort (fun a b => strLe a b = true)).map
          (fun n => n ++ "=" ++ custom_serializer (getField w n))))).data.take 16⟩
    ∧ (cacheKey w).length = 16
    ∧ (∀ c ∈ (cacheKey w).data, isHexDigitChar c = true) := by
  refine ⟨?_, rfl, cacheKey_length w, cacheKey_hex w⟩
  unfold filepath
  rw [h1]
  simp [h2]

/-- Witness for C2 at a concrete enabled-cache configuration. -/
theorem cache_key_structure_witness :
    filepath cfgList
      = some (("modes") ++ "/" ++ "Waveguide_" ++ cacheKey cfgList ++ ".npz") :=
  (cache_key_structure cfgList ("modes") rfl (by decide)).1

/-- C5: the loss accessor computes exactly the closed-form
`20 * log10(e) * (2 * pi * Im(n_eff) / wavelength_m) * 1e-2` with the
configured wavelength converted from micrometers to meters, per mode and
per wavelength: the double transpose in the code aligns the broadcast of
the wavelength axis and cancels out. -/
theorem loss_matches_spec (log10e pi : ℚ) (w : Waveguide)
    (n_eff_im : ℕ → ℕ → ℚ) (iw imode : ℕ) :
    loss_dB_per_cm log10e pi w n_eff_im iw imode
      = loss_dB_per_cm_spec log10e pi w n_eff_im iw imode := rfl

/-- C7: the field serializer is a total function (it never raises), and a
`None`-valued field serializes to the stable token `None`, which differs
from the serialization of every real field value. -/
theorem serializer_none_distinct (v : FieldValue) (h : v ≠ FieldValue.none) :
    custom_serializer v ≠ custom_serializer FieldValue.none := by
  cases v with
  | none => exact absurd rfl h
  | float q => exact floatStr_ne_none q
  | int n => exact natStr_ne_none n
  | bool b => cases b <;> decide
  | str s => exact ne_none_of_head (quoteStr s) '\x27' _ rfl (by decide)
  | array a =>
    cases a with
    | scalarArr q => exact floatStr_ne_none q
    | arr qs =>
      exact ne_none_of_head (arrayStr (.arr qs)) '[' _ rfl (by decide)
  | material m =>
    cases m with
    | name s => exact ne_none_of_head (quoteStr s) '\x27' _ rfl (by decide)
    | index n => exact floatStr_ne_none n
    | nk n k =>
      exact ne_none_of_head (materialStr (.nk n k)) '(' _ rfl (by decide)
    | medium tag =>
      exact ne_none_of_head (materialStr (.medium tag)) 'M' _ rfl (by decide)

/-- Witness for C7 at a concrete non-`None` field value. -/
theorem serializer_none_distinct_witness :
    (FieldValue.int 5 ≠ FieldValue.none)
      ∧ custom_serializer (FieldValue.int 5)
        ≠ custom_serializer FieldValue.none :=
  ⟨by decide, serializer_none_distinct (FieldValue.int 5) (by decide)⟩

/-- C3: the first access to `_data` follows the caching policy.  With no
cache directory configured, the result is computed and never persisted
(the store is unchanged).  With a cache directory, an existing file, and
`overwrite = false`, the stored mapping is loaded and returned without
running the simulation (no compute event; the lazy handle is untouched).
Otherwise — no matching file, or `overwrite = true` even when a valid
file exists — the simulation runs, the mapping is assembled, and it is
persisted to the cache file before being returned. -/
theorem data_access_policy (env : ExternalEnv)
    (solver : SimHandle → ModeSolverData) (inst : Instance) (fs : FS)
    (h : inst.cached_data = Option.none) :
    (filepath inst.cfg = Option.none →
      (dataAccess env solver inst fs).1
          = computeData inst.cfg (solver (waveguideAccess env inst).1)
        ∧ (dataAccess env solver inst fs).2.2.1 = fs
        ∧ (dataAccess env solver inst fs).2.2.2 = [Event.compute])
    ∧ (∀ p stored, filepath inst.cfg = some p → fs.lookup p = some stored →
        inst.cfg.overwrite = false →
        (dataAccess env solver inst fs).1 = stored
          ∧ (dataAccess env solver inst fs).2.2.1 = fs
          ∧ (dataAccess env solver inst fs).2.2.2 = [Event.load p]
          ∧ (dataAccess env solver inst fs).2.1.wg_handle = inst.wg_handle)
    ∧ (∀ p, filepath inst.cfg = some p →
        (fs.lookup p = Option.none ∨ inst.cfg.overwrite = true) →
        (dataAccess env solver inst fs).1
            = computeData inst.cfg (solver (waveguideAccess env inst).1)
          ∧ (dataAccess env solver inst fs).2.2.2
              = [Event.compute, Event.store p]
          ∧ ((dataAccess env solver inst fs).2.2.1).lookup p
              = some ((dataAccess env solver inst fs).1)) := by
  refine ⟨?_, ?_, ?_⟩
  · intro hfp
    have e : dataAccess env solver inst fs
        = computeAndMaybeStore env solver inst fs Option.none := by
      simp only [dataAccess, h, hfp]
    rw [e]
    refine ⟨?_, rfl, rfl⟩
    show computeData (waveguideAccess env inst).2.1.cfg
        (solver (waveguideAccess env inst).1)
      = computeData inst.cfg (solver (waveguideAccess env inst).1)
    rw [waveguideAccess_cfg]
  · intro p stored hfp hl hov
    have e : dataAccess env solver inst fs
        = (stored, { inst with cached_data := some stored }, fs,
            [Event.load p]) := by
      simp only [dataAccess, h, hfp, hl, hov]
    rw [e]
    exact ⟨rfl, rfl, rfl, rfl⟩
  · intro p hfp hcase
    have e : dataAccess env solver inst fs
        = computeAndMaybeStore env solver inst fs (some p) := by
      rcases hcase with hl | hov
      · rcases hov2 : inst.cfg.overwrite with _ | _ <;>
          simp only [dataAccess, h, hfp, hl, hov2]
      · rcases hl2 : fs.lookup p with _ | st <;>
          simp only [dataAccess, h, hfp, hl2, hov]
    rw [e]
    refine ⟨?_, rfl, ?_⟩
    · show computeData (waveguideAccess env inst).2.1.cfg
          (solver (waveguideAccess env inst).1)
        = computeData inst.cfg (solver (waveguideAccess env inst).1)
      rw [waveguideAccess_cfg]
    · simp only [computeAndMaybeStore]
      simp [List.lookup]

/-- Witness for C3: with caching disabled, the first access computes, does
not touch the store, and records exactly the compute action. -/
theorem data_access_policy_witness :
    (dataAccess envC solverC instNoCache []).1
        = computeData instNoCache.cfg
            (solverC (waveguideAccess envC instNoCache).1)
      ∧ (dataAccess envC solverC instNoCache []).2.2.1 = ([] : FS)
      ∧ (dataAccess envC solverC instNoCache []).2.2.2 = [Event.compute] :=
  (data_access_policy envC solverC instNoCache [] rfl).1 rfl

/-- C4: round-trip through the cache.  A configuration computes its result
(no matching file in the store), which persists the mapping; a second
fresh instance with the same cache key and `overwrite = false` then loads
from the cache without recomputation (its only event is the load), and
every named array it obtains equals the originally computed one — the
equality is exact, hence within any floating-point tolerance. -/
theorem cache_roundtrip (env : ExternalEnv)
    (solver : SimHandle → ModeSolverData) (inst1 inst2 : Instance) (fs : FS)
    (h1 : inst1.cached_data = Option.none)
    (h2 : inst2.cached_data = Option.none)
    (h3 : inst2.cfg.overwrite = false)
    (h4 : filepath inst2.cfg = filepath inst1.cfg)
    (h5 : (filepath inst1.cfg).isSome = true)
    (h6 : ∀ p, filepath inst1.cfg = some p → fs.lookup p = Option.none) :
    ((dataAccess env solver inst2 ((dataAccess env solver inst1 fs).2.2.1)).1
        = (dataAccess env solver inst1 fs).1)
    ∧ (∀ k,
        ((dataAccess env solver inst2
            ((dataAccess env solver inst1 fs).2.2.1)).1).lookup k
          = ((dataAccess env solver inst1 fs).1).lookup k)
    ∧ (∃ p, (dataAccess env solver inst2
        ((dataAccess env solver inst1 fs).2.2.1)).2.2.2 = [Event.load p]) := by
  obtain ⟨p, hp⟩ := Option.isSome_iff_exists.mp h5
  have hl := h6 p hp
  have e1 : dataAccess env solver inst1 fs
      = computeAndMaybeStore env solver inst1 fs (some p) := by
    rcases hov : inst1.cfg.overwrite with _ | _ <;>
      simp only [dataAccess, h1, hp, hl, hov]
  have hfp2 : filepath inst2.cfg = some p := by rw [h4, hp]
  have hlook : ((computeAndMaybeStore env solver inst1 fs (some p)).2.2.1).lookup p
      = some ((computeAndMaybeStore env solver inst1 fs (some p)).1) := by
    simp only [computeAndMaybeStore]
    simp [List.lookup]
  have e2a : (dataAccess env solver inst2
        ((computeAndMaybeStore env solver inst1 fs (some p)).2.2.1)).1
      = (computeAndMaybeStore env solver inst1 fs (some p)).1 := by
    simp only [dataAccess, h2, hfp2, hlook, h3]
  have e2b : (dataAccess env solver inst2
        ((computeAndMaybeStore env solver inst1 fs (some p)).2.2.1)).2.2.2
      = [Event.load p] := by
    simp only [dataAccess, h2, hfp2, hlook, h3]
  rw [e1]
  exact ⟨e2a, fun k => by rw [e2a], ⟨p, e2b⟩⟩

/-- Witness for C4: compute-then-load on the same enabled-cache
configuration returns the identical mapping. -/
theorem cache_roundtrip_witness :
    (dataAccess envC solverC instCache
        ((dataAccess envC solverC instCache []).2.2.1)).1
      = (dataAccess envC solverC instCache []).1 :=
  (cache_roundtrip envC solverC instCache instCache [] rfl rfl rfl rfl rfl
    (fun _ _ => rfl)).1

/-- C6 counterexample: on a two-mode configuration (caching disabled), the
call `plot_field ("Ex", "real", mode_index = 5)` raises the `mode_index`
validation error, yet the simulation has already run by the time the check
fires: the event trace of this failing call is exactly the compute action,
which the code performs while evaluating `data = self._data[field_name]`
on line 367, before the `mode_index` check on line 369.  The rejection
therefore does not happen before computation is attempted, refuting the
claim as stated. -/
theorem plot_field_counterexample :
    isErr (plot_field envC solverC instNoCache [] ("Ex") ("real") 5
        Option.none).1 = true
    ∧ (plot_field envC solverC instNoCache [] ("Ex") ("real") 5
        Option.none).2.2.2 = [Event.compute] := by
  exact ⟨rfl, rfl⟩

/-- C6 amended: an invalid request — a field name absent from the result
mapping (the `KeyError` condition of `data = self._data[field_name]`), or
a `mode_index` at or beyond `num_modes` — makes `plot_field` raise an
error rather than return stale or out-of-range data; but the validation
happens only after the result data has been computed or loaded: the
failing call performs exactly the `_data` access actions. -/
theorem plot_field_rejects_invalid (env : ExternalEnv)
    (solver : SimHandle → ModeSolverData) (inst : Instance) (fs : FS)
    (field_name value : String) (mi : ℕ) (wl : Option ℚ)
    (h : (dataAccess env solver inst fs).1.lookup field_name = Option.none
      ∨ inst.cfg.num_modes ≤ mi) :
    isErr (plot_field env solver inst fs field_name value mi wl).1 = true
    ∧ (plot_field env solver inst fs field_name value mi wl).2.2.2
        = (dataAccess env solver inst fs).2.2.2 := by
  have hc := dataAccess_cfg env solver inst fs
  simp only [plot_field]
  rcases hdl : (dataAccess env solver inst fs).1.lookup field_name with _ | a
  · simp only [hdl]
    exact ⟨rfl, trivial⟩
  · have hm : inst.cfg.num_modes ≤ mi := by
      rcases h with h | h
      · rw [hdl] at h
        exact Option.noConfusion h
      · exact h
    simp only [hdl]
    rw [hc, if_pos hm]
    exact ⟨rfl, rfl⟩

/-- Witness for C6 (amended), exercising both triggers: a call with an
unknown field name (in-range mode index) raises, and a call with an
out-of-range mode index raises. -/
theorem plot_field_rejects_invalid_witness :
    isErr (plot_field envC solverC instNoCache [] ("Qx") ("real") 0
        Option.none).1 = true
    ∧ isErr (plot_field envC solverC instNoCache [] ("Ey") ("real") 7
        Option.none).1 = true :=
  ⟨(plot_field_rejects_invalid envC solverC instNoCache [] ("Qx") ("real") 0
      Option.none (Or.inl rfl)).1,
   (plot_field_rejects_invalid envC solverC instNoCache [] ("Ey") ("real") 7
      Option.none (Or.inr (by decide))).1⟩

theorem waveguideAccess_fresh (env : ExternalEnv) (inst : Instance)
    (h : inst.wg_handle = Option.none) :
    waveguideAccess env inst
      = (buildWaveguide env inst.cfg,
          { cfg := inst.cfg, wg_handle := some (buildWaveguide env inst.cfg),
            cached_data := inst.cached_data }, true) := by
  rcases inst with ⟨cfg, wh, cd⟩
  cases h
  rfl

theorem accessSeq_memoized (env : ExternalEnv) (hdl : SimHandle) :
    ∀ n (inst : Instance), inst.wg_handle = some hdl →
      accessSeq env n inst = (List.replicate n (hdl, false), inst) := by
  intro n
  induction n with
  | zero => intro inst h; rfl
  | succ n ih =>
    intro inst h
    have e : waveguideAccess env inst = (hdl, inst, false) := by
      rcases inst with ⟨cfg, wh, cd⟩
      cases h
      rfl
    simp only [accessSeq, e, ih inst h, List.replicate]

/-- C8: the simulation object is constructed exactly once per instance, on
the first access to the `waveguide` property, and every one of the `n`
subsequent accesses returns that same memoized object without rebuilding;
after the run the object is still memoized in the instance state. -/
theorem waveguide_memoized (env : ExternalEnv) (inst : Instance) (n : ℕ)
    (h : inst.wg_handle = Option.none) :
    (accessSeq env (n + 1) inst).1
        = (buildWaveguide env inst.cfg, true)
          :: List.replicate n (buildWaveguide env inst.cfg, false)
      ∧ (accessSeq env (n + 1) inst).2.wg_handle
          = some (buildWaveguide env inst.cfg) := by
  have e := waveguideAccess_fresh env inst h
  have hrest := accessSeq_memoized env (buildWaveguide env inst.cfg) n
    { cfg := inst.cfg, wg_handle := some (buildWaveguide env inst.cfg),
      cached_data := inst.cached_data } rfl
  constructor
  · simp only [accessSeq, e, hrest]
  · simp only [accessSeq, e, hrest]

/-- Witness for C8: three accesses on a fresh instance build once and then
return the memoized object twice. -/
theorem waveguide_memoized_witness :
    (accessSeq envC 3 instCache).1
      = (buildWaveguide envC instCache.cfg, true)
        :: List.replicate 2 (buildWaveguide envC instCache.cfg, false) :=
  (waveguide_memoized envC instCache 2 rfl).1

/-- C9: no operation of the module changes a declared configuration field
once the instance is built: the lazy builder, the data access, and the
plotting entry point all return an instance whose configuration record is
unchanged — only the private memoization state (`_waveguide`,
`_cached_data`) varies. -/
theorem config_immutable (env : ExternalEnv)
    (solver : SimHandle → ModeSolverData) (inst : Instance) (fs : FS)
    (field_name value : String) (mi : ℕ) (wl : Option ℚ) :
    (waveguideAccess env inst).2.1.cfg = inst.cfg
    ∧ (dataAccess env solver inst fs).2.1.cfg = inst.cfg
    ∧ (plot_field env solver inst fs field_name value mi wl).2.1.cfg
        = inst.cfg := by
  refine ⟨waveguideAccess_cfg env inst, dataAccess_cfg env solver inst fs, ?_⟩
  have e : (plot_field env solver inst fs field_name value mi wl).2.1
      = (dataAccess env solver inst fs).2.1 := by
    simp only [plot_field]
    rcases hdl : (dataAccess env solver inst fs).1.lookup field_name
        with _ | a
    · simp only [hdl]
    · simp only [hdl]
      by_cases h1 : (dataAccess env solver inst fs).2.1.cfg.num_modes ≤ mi
      · rw [if_pos h1]
      · rw [if_neg h1]
        by_cases h2 : value = "real" ∨ value = "imag" ∨ value = "abs"
            ∨ value = "dB" ∨ value = "phase"
        · rw [if_pos h2]
        · rw [if_neg h2]
  rw [e]
  exact dataAccess_cfg env solver inst fs

theorem sumAbsSq_nonneg (l : List Complexq) : 0 ≤ sumAbsSq l := by
  apply List.sum_nonneg
  intro x hx
  simp only [List.mem_map] at hx
  obtain ⟨z, _, rfl⟩ := hx
  exact add_nonneg (mul_self_nonneg _) (mul_self_nonneg _)

theorem fractionPair_fst (ex ey : List Complexq)
    (h : 0 < sumAbsSq ex + sumAbsSq ey) :
    (fractionPair ex ey).1 = sumAbsSq ex / (sumAbsSq ex + sumAbsSq ey) := by
  have hs : sumAbsSq ex + sumAbsSq ey ≠ 0 := ne_of_gt h
  have hden : sumAbsSq ex / (sumAbsSq ex + sumAbsSq ey) * 100
      + sumAbsSq ey / (sumAbsSq ex + sumAbsSq ey) * 100 = 100 := by
    field_simp
    ring
  simp only [fractionPair]
  rw [hden, mul_div_assoc]
  norm_num

theorem fractionPair_snd (ex ey : List Complexq)
    (h : 0 < sumAbsSq ex + sumAbsSq ey) :
    (fractionPair ex ey).2 = sumAbsSq ey / (sumAbsSq ex + sumAbsSq ey) := by
  have hs : sumAbsSq ex + sumAbsSq ey ≠ 0 := ne_of_gt h
  have hden : sumAbsSq ex / (sumAbsSq ex + sumAbsSq ey) * 100
      + sumAbsSq ey / (sumAbsSq ex + sumAbsSq ey) * 100 = 100 := by
    field_simp
    ring
  simp only [fractionPair]
  rw [hden, mul_div_assoc]
  norm_num

/-- C10: for every mode whose transverse E-field carries nonzero energy
(the solver returns normalised, nonzero mode fields), the polarization
fractions computed by `_data` satisfy `fraction_te + fraction_tm = 1`,
each lying between 0 and 1.  The arrays here are exactly the values the
computed mapping stores under `fraction_te` and `fraction_tm`. -/
theorem fraction_te_tm_sum (w : Waveguide) (sol : ModeSolverData) (i : ℕ)
    (hi : i < w.num_modes)
    (h : 0 < sumAbsSq (sol.fieldComp ("Ex") i)
        + sumAbsSq (sol.fieldComp ("Ey") i)) :
    (fraction_te_computed w sol).getD i 0
        + (fraction_tm_computed w sol).getD i 0 = 1
    ∧ 0 ≤ (fraction_te_computed w sol).getD i 0
    ∧ (fraction_te_computed w sol).getD i 0 ≤ 1
    ∧ 0 ≤ (fraction_tm_computed w sol).getD i 0
    ∧ (fraction_tm_computed w sol).getD i 0 ≤ 1 := by
  have egetD : ∀ f : ℕ → ℚ, ((List.range w.num_modes).map f).getD i 0 = f i := by
    intro f
    rw [List.getD_eq_getElem?_getD, List.getElem?_map, List.getElem?_range hi]
    rfl
  have e1 : (fraction_te_computed w sol).getD i 0
      = (fractionPair (sol.fieldComp ("Ex") i) (sol.fieldComp ("Ey") i)).1 := by
    unfold fraction_te_computed
    exact egetD _
  have e2 : (fraction_tm_computed w sol).getD i 0
      = (fractionPair (sol.fieldComp ("Ex") i) (sol.fieldComp ("Ey") i)).2 := by
    unfold fraction_tm_computed
    exact egetD _
  have ha := sumAbsSq_nonneg (sol.fieldComp ("Ex") i)
  have hb := sumAbsSq_nonneg (sol.fieldComp ("Ey") i)
  rw [e1, e2, fractionPair_fst _ _ h, fractionPair_snd _ _ h]
  refine ⟨?_, ?_, ?_, ?_, ?_⟩
  · rw [div_add_div_same, div_self (ne_of_gt h)]
  · exact div_nonneg ha (le_of_lt h)
  · exact (div_le_one h).mpr (le_add_of_nonneg_right hb)
  · exact div_nonneg hb (le_of_lt h)
  · exact (div_le_one h).mpr (le_add_of_nonneg_left ha)

/-- Witness for C10 at a concrete solver output whose transverse E-field
energy is all in `Ex`. -/
theorem fraction_te_tm_sum_witness :
    (fraction_te_computed cfgList solW).getD 0 0
        + (fraction_tm_computed cfgList solW).getD 0 0 = 1 :=
  (fraction_te_tm_sum cfgList solW 0 (by decide)
    (by simp [solW, sumAbsSq])).1
